import Mathlib

/-!
Verification of the weather-agent HTTP service (`src/index.ts`).

The pipeline is embedded shallowly:
* JSON values are an inductive type; JSON numbers are modelled as integers
  (every payload in scope carries integral numbers, and floating-point
  formatting is outside the embedding).
* zod schemas (`querySchema`, `dataSchema`, `depsSchema`, the tool input
  schema) become total parsing functions returning `Option` / `Except`.
* `fetchWeather` is split at its single I/O point: the provider's HTTP
  response is passed in as a value, and the function is the pure remainder
  (status check, schema validation, field mapping).
* The `POST /weather` handler becomes `runRequest`.  The Mastra agent is an
  external black box: it is a parameter, together with the list of tool-call
  argument objects it chooses to issue.  `context.req.json()` sits outside
  the handler's `try`, so a body that fails JSON parsing is modelled as
  `Request.body = none` and produces the `uncaught` outcome.
-/

inductive TemperatureUnit where
  | celsius
  | fahrenheit
  deriving DecidableEq, Repr

inductive Json where
  | null
  | bool (b : Bool)
  | num (n : Int)
  | str (s : String)
  | arr (elems : List Json)
  | obj (fields : List (String × Json))
  deriving Repr

/-- Field lookup on a JSON value: the first binding of the key when the value
is an object, `none` otherwise (accessing a property of a non-object). -/
def jGet : Json → String → Option Json
  | Json.obj fields, key => fields.lookup key
  | _, _ => none

/-- The validated shape required by `dataSchema` inside `fetchWeather`:
`name: string`, `main.temp: number`, `main.humidity: number`, and a `weather`
array each of whose entries has a `description: string`. -/
structure WeatherData where
  name : String
  temp : Int
  humidity : Int
  weather : List String
  deriving DecidableEq, Repr

/-- One entry of the `weather` array: `z.object({ description: z.string() })`. -/
def parseDescription (j : Json) : Option String :=
  match jGet j "description" with
  | some (Json.str s) => some s
  | _ => none

/-- `z.array(z.object({ description: z.string() }))`: every entry must parse. -/
def parseDescriptions : List Json → Option (List String)
  | [] => some []
  | e :: es =>
    match parseDescription e, parseDescriptions es with
    | some s, some ss => some (s :: ss)
    | _, _ => none

/-- `dataSchema.parse` from `fetchWeather`: requires `name: z.string()`,
`main: z.object({temp: z.number(), humidity: z.number()})`, and
`weather: z.array(z.object({description: z.string()}))`; unknown keys are
ignored, any missing or wrongly typed required field fails. -/
def parseDataSchema (j : Json) : Option WeatherData :=
  match jGet j "name" with
  | some (Json.str n) =>
    match jGet j "main" with
    | some m =>
      match jGet m "temp", jGet m "humidity" with
      | some (Json.num t), some (Json.num h) =>
        match jGet j "weather" with
        | some (Json.arr ws) =>
          match parseDescriptions ws with
          | some ds => some ⟨n, t, h, ds⟩
          | none => none
        | _ => none
      | _, _ => none
    | none => none
  | _ => none

/-- The domain model produced by the Weather Tool. -/
structure WeatherReport where
  location : String
  temperature : Int
  conditions : String
  humidity : String
  unit : TemperatureUnit
  deriving DecidableEq, Repr

/-- The failure taxonomy; in the source every failure is a thrown `Error`
carrying only a message, which the handler's `catch` reads back. -/
inductive AppError where
  | validationError (message : String)
  | configurationError (message : String)
  | upstreamError (message : String)
  | orchestratorError (message : String)
  deriving DecidableEq, Repr

def AppError.message : AppError → String
  | validationError m => m
  | configurationError m => m
  | upstreamError m => m
  | orchestratorError m => m

/-- The provider's HTTP response as seen by `fetchWeather` after `fetch`. -/
structure HttpResponse where
  ok : Bool
  statusText : String
  body : Json
  deriving Repr

/-- The `units` query parameter chosen from the temperature unit. -/
def unitsParam : TemperatureUnit → String
  | TemperatureUnit.celsius => "metric"
  | TemperatureUnit.fahrenheit => "imperial"

def dataSchemaErrorMessage : String :=
  "ValidationError: provider response failed schema validation"

/-- The pure remainder of `fetchWeather` once the provider response is in
hand: throw on a non-ok status, validate the body against `dataSchema`, and
map the validated payload to a `WeatherReport`.  `conditions` is
`data.weather[0]?.description ?? "unknown"`; `humidity` interpolates the
number followed by a percent sign; `unit` copies the requested unit. -/
def fetchWeather (location : String) (weatherApiKey : String)
    (temperatureUnit : TemperatureUnit) (response : HttpResponse) :
    Except AppError WeatherReport :=
  if response.ok = false then
    Except.error (AppError.upstreamError
      ("Error fetching weather: " ++ response.statusText))
  else
    match parseDataSchema response.body with
    | none => Except.error (AppError.validationError dataSchemaErrorMessage)
    | some data =>
      Except.ok
        { location := data.name
          temperature := data.temp
          conditions := (data.weather.head?).getD "unknown"
          humidity := toString data.humidity ++ "%"
          unit := temperatureUnit }

/-- `depsSchema`: the validated per-request dependency bag. -/
structure DependenciesType where
  weatherApiKey : String
  temperatureUnit : TemperatureUnit
  userName : String
  userRole : String
  deriving DecidableEq, Repr

def encodeTemperatureUnit : TemperatureUnit → Json
  | TemperatureUnit.celsius => Json.str "celsius"
  | TemperatureUnit.fahrenheit => Json.str "fahrenheit"

/-- `z.enum(["celsius", "fahrenheit"])`. -/
def parseTemperatureUnit : Json → Option TemperatureUnit
  | Json.str "celsius" => some TemperatureUnit.celsius
  | Json.str "fahrenheit" => some TemperatureUnit.fahrenheit
  | _ => none

/-- The JSON encoding of a dependency bag, for stating schema validity. -/
def encodeDeps (d : DependenciesType) : Json :=
  Json.obj
    [("weatherApiKey", Json.str d.weatherApiKey),
     ("temperatureUnit", encodeTemperatureUnit d.temperatureUnit),
     ("userName", Json.str d.userName),
     ("userRole", Json.str d.userRole)]

/-- `depsSchema.parse`: all four fields required, with the unit enumerated. -/
def parseDepsSchema (j : Json) : Option DependenciesType :=
  match jGet j "weatherApiKey", jGet j "temperatureUnit",
        jGet j "userName", jGet j "userRole" with
  | some (Json.str k), some u, some (Json.str n), some (Json.str r) =>
    match parseTemperatureUnit u with
    | some tu => some ⟨k, tu, n, r⟩
    | none => none
  | _, _, _, _ => none

/-- The Weather Tool's `inputSchema`, `z.object({ location: z.string() })`:
any string is accepted, the empty string included. -/
def parseToolInput (j : Json) : Option String :=
  match jGet j "location" with
  | some (Json.str s) => some s
  | _ => none

/-- The tool's `execute` callback: forwards the validated location together
with the bag's key and unit to `fetchWeather`. -/
def weatherToolExecute (location : String) (dependencies : DependenciesType)
    (response : HttpResponse) : Except AppError WeatherReport :=
  fetchWeather location dependencies.weatherApiKey
    dependencies.temperatureUnit response

/-- Identity extracted by the context middleware. -/
structure UserContext where
  userName : String
  userRole : String
  deriving DecidableEq, Repr

/-- An inbound request: the two optional identity headers, and the JSON body
(`none` when `context.req.json()` would throw on a malformed body). -/
structure Request where
  headerUserName : Option String
  headerUserRole : Option String
  body : Option Json
  deriving Repr

/-- The context middleware: header values with defaults. -/
def extractUserContext (req : Request) : UserContext :=
  { userName := req.headerUserName.getD "Anonymous"
    userRole := req.headerUserRole.getD "guest" }

def querySchemaErrorMessage : String :=
  "ValidationError: expected a body with a string location"

/-- `querySchema.parse`: the body must be an object whose `location` is a
string (`z.object({ location: z.string() })`; no non-empty refinement). -/
def parseQuerySchema (j : Json) : Except String String :=
  match jGet j "location" with
  | some (Json.str s) => Except.ok s
  | _ => Except.error querySchemaErrorMessage

def missingKeyMessage : String :=
  "Missing WEATHER_API_KEY environment variable"

/-- Dependency assembly inside the handler: read the secret, throw the
configuration error when it is falsy (absent or empty), and build the bag
with the hard-coded `fahrenheit` unit and the extracted identity. -/
def assembleDeps (apiKey : Option String) (uc : UserContext) :
    Except String DependenciesType :=
  match apiKey with
  | none => Except.error missingKeyMessage
  | some k =>
    if k = "" then Except.error missingKeyMessage
    else
      Except.ok
        { weatherApiKey := k
          temperatureUnit := TemperatureUnit.fahrenheit
          userName := uc.userName
          userRole := uc.userRole }

/-- What the transport layer sees for one request. -/
inductive HttpOutcome where
  | success (message : String)
  | failure (errorMessage : String)
  | uncaught
  deriving DecidableEq, Repr

/-- Whether the outcome is the handler's JSON envelope
(`{success: true, message}` with 200 or `{success: false, error}` with 400),
as opposed to a fault that escaped the handler's `catch`. -/
def HttpOutcome.isEnvelope : HttpOutcome → Bool
  | success _ => true
  | failure _ => true
  | uncaught => false

/-- HTTP status of the outcome; `none` when the fault escaped the handler. -/
def HttpOutcome.status : HttpOutcome → Option Nat
  | success _ => some 200
  | failure _ => some 400
  | uncaught => none

/-- Provider invocations caused by the orchestrator's tool calls: each
argument object is validated against the tool `inputSchema`; for each one
that validates, `fetchWeather` runs and its `fetch` fires first, so the
provider records exactly the validated locations. -/
def providerInvocations (toolCalls : List Json) : List String :=
  toolCalls.filterMap parseToolInput

/-- The `POST /weather` handler.  `toolCalls` is the list of argument
objects the black-box agent chooses to pass to the Weather Tool and `orch`
its overall result on the assembled bag and prompt.  Returns the outcome
and the provider-invocation log.  The body-parse step sits outside the
`try`, so its failure yields `uncaught` rather than the envelope. -/
def runRequest (env : Option String) (req : Request)
    (toolCalls : List Json)
    (orch : DependenciesType → String → Except String String) :
    HttpOutcome × List String :=
  match req.body with
  | none => (HttpOutcome.uncaught, [])
  | some body =>
    match parseQuerySchema body with
    | Except.error e => (HttpOutcome.failure e, [])
    | Except.ok location =>
      match assembleDeps env (extractUserContext req) with
      | Except.error e => (HttpOutcome.failure e, [])
      | Except.ok deps =>
        match orch deps ("What is the weather in " ++ location ++ "?") with
        | Except.error e =>
          (HttpOutcome.failure e, providerInvocations toolCalls)
        | Except.ok text =>
          (HttpOutcome.success text, providerInvocations toolCalls)

/-- Whether `jGet j k` yields a string (the shape `z.string()` accepts). -/
def isStrField (j : Json) (k : String) : Bool :=
  match jGet j k with
  | some (Json.str _) => true
  | _ => false

/-- Whether `jGet j k` yields a number (the shape `z.number()` accepts). -/
def isNumField (j : Json) (k : String) : Bool :=
  match jGet j k with
  | some (Json.num _) => true
  | _ => false

/-- Whether the `main` object carries numeric `temp` and `humidity`. -/
def mainFieldsOk (j : Json) : Bool :=
  match jGet j "main" with
  | some m => isNumField m "temp" && isNumField m "humidity"
  | none => false

/-- A provider body with the three required fields and an empty `weather`
array, hence no `weather[0].description`. -/
def bodyNoDescription : Json :=
  Json.obj
    [("name", Json.str "San Francisco"),
     ("main", Json.obj [("temp", Json.num 72), ("humidity", Json.num 65)]),
     ("weather", Json.arr [])]

/-- A provider body with the three required fields but no `weather` key. -/
def bodyMissingWeather : Json :=
  Json.obj
    [("name", Json.str "San Francisco"),
     ("main", Json.obj [("temp", Json.num 72), ("humidity", Json.num 65)])]

/-- The provider body of Scenario A. -/
def scenarioABody : Json :=
  Json.obj
    [("name", Json.str "San Francisco"),
     ("main", Json.obj [("temp", Json.num 72), ("humidity", Json.num 65)]),
     ("weather", Json.arr [Json.obj [("description", Json.str "partly cloudy")]])]

/-- Claim C1 (amended): every request whose body parses as JSON is answered
with the handler's envelope, status 200 on success and 400 on any failure
(validation, configuration, or orchestrator); only a body that fails JSON
parsing escapes the handler's catch. -/
theorem weather_failures_flatten_to_envelope (env : Option String)
    (req : Request) (toolCalls : List Json)
    (orch : DependenciesType → String → Except String String)
    (b : Json) (hb : req.body = some b) :
    (runRequest env req toolCalls orch).1.isEnvelope = true ∧
    ((runRequest env req toolCalls orch).1.status = some 200 ∨
     (runRequest env req toolCalls orch).1.status = some 400) := by
  unfold runRequest
  rw [hb]
  cases hq : parseQuerySchema b with
  | error e => simp [hq, HttpOutcome.isEnvelope, HttpOutcome.status]
  | ok loc =>
    cases hd : assembleDeps env (extractUserContext req) with
    | error e => simp [hq, hd, HttpOutcome.isEnvelope, HttpOutcome.status]
    | ok deps =>
      cases ho : orch deps ("What is the weather in " ++ loc ++ "?") with
      | error e => simp [hq, hd, ho, HttpOutcome.isEnvelope, HttpOutcome.status]
      | ok t => simp [hq, hd, ho, HttpOutcome.isEnvelope, HttpOutcome.status]

/-- Witness for C1: a concrete request with a parsing body is answered with
the envelope. -/
theorem weather_failures_flatten_to_envelope_witness :
    (runRequest none ⟨none, none, some (Json.obj [])⟩ []
      (fun _ _ => Except.ok "hello")).1.isEnvelope = true ∧
    ((runRequest none ⟨none, none, some (Json.obj [])⟩ []
      (fun _ _ => Except.ok "hello")).1.status = some 200 ∨
     (runRequest none ⟨none, none, some (Json.obj [])⟩ []
      (fun _ _ => Except.ok "hello")).1.status = some 400) :=
  weather_failures_flatten_to_envelope none ⟨none, none, some (Json.obj [])⟩ []
    (fun _ _ => Except.ok "hello") (Json.obj []) rfl

/-- Counterexample to C1 as stated: a request whose body fails JSON parsing
(the parse sits outside the handler's try) does not receive the envelope —
the fault escapes to the transport layer. -/
theorem malformed_body_escapes_envelope :
    (runRequest (some "key") ⟨none, none, none⟩ []
      (fun _ _ => Except.ok "hello")).1 = HttpOutcome.uncaught ∧
    (runRequest (some "key") ⟨none, none, none⟩ []
      (fun _ _ => Except.ok "hello")).1.isEnvelope = false :=
  ⟨rfl, rfl⟩

/-- Claim C2 (amended): `dataSchema` validation succeeds for bodies carrying
`name: string`, `main.temp: number`, `main.humidity: number`, and a
`weather` array each entry of which has a string `description`; the array
may be empty, in which case the body has no description yet still validates
and maps to a report. -/
theorem data_schema_accepts_required_fields_with_weather_array
    (body m : Json) (n : String) (t h : Int) (ws : List Json)
    (ds : List String) (loc key st : String) (u : TemperatureUnit)
    (h1 : jGet body "name" = some (Json.str n))
    (h2 : jGet body "main" = some m)
    (h3 : jGet m "temp" = some (Json.num t))
    (h4 : jGet m "humidity" = some (Json.num h))
    (h5 : jGet body "weather" = some (Json.arr ws))
    (h6 : parseDescriptions ws = some ds) :
    parseDataSchema body = some ⟨n, t, h, ds⟩ ∧
    fetchWeather loc key u ⟨true, st, body⟩ =
      Except.ok ⟨n, t, (ds.head?).getD "unknown", toString h ++ "%", u⟩ := by
  have hp : parseDataSchema body = some ⟨n, t, h, ds⟩ := by
    unfold parseDataSchema
    simp [h1, h2, h3, h4, h5, h6]
  exact ⟨hp, by unfold fetchWeather; simp [hp]⟩

/-- Witness for C2: a body with the required fields and an empty `weather`
array (no description anywhere) validates and maps to a report. -/
theorem data_schema_accepts_required_fields_with_weather_array_witness :
    parseDataSchema bodyNoDescription = some ⟨"San Francisco", 72, 65, []⟩ ∧
    fetchWeather "San Francisco" "key" TemperatureUnit.fahrenheit
      ⟨true, "OK", bodyNoDescription⟩ =
      Except.ok ⟨"San Francisco", 72, "unknown", "65%", TemperatureUnit.fahrenheit⟩ :=
  data_schema_accepts_required_fields_with_weather_array bodyNoDescription
    (Json.obj [("temp", Json.num 72), ("humidity", Json.num 65)])
    "San Francisco" 72 65 [] [] "San Francisco" "key" "OK"
    TemperatureUnit.fahrenheit rfl rfl rfl rfl rfl rfl

/-- Counterexample to C2 as stated: a body containing exactly the three
required fields (and nothing else) fails validation, because `dataSchema`
also requires the `weather` array itself. -/
theorem data_schema_rejects_missing_weather_array :
    parseDataSchema bodyMissingWeather = none := rfl

/-- A request body carrying an empty-string location. -/
def emptyLocationBody : Json := Json.obj [("location", Json.str "")]

/-- Claim C3 (amended): when the body's `location` is missing or not a
string, `querySchema` rejects it before the orchestrator runs, the response
is the validation-error envelope and the provider records zero invocations;
an empty-string location, however, passes `z.string()` and proceeds. -/
theorem missing_location_fails_before_provider
    (env : Option String) (req : Request) (b : Json)
    (toolCalls : List Json)
    (orch : DependenciesType → String → Except String String)
    (hb : req.body = some b)
    (hloc : ∀ s, jGet b "location" ≠ some (Json.str s)) :
    runRequest env req toolCalls orch =
      (HttpOutcome.failure querySchemaErrorMessage, []) := by
  have hq : parseQuerySchema b = Except.error querySchemaErrorMessage := by
    unfold parseQuerySchema
    cases hj : jGet b "location" with
    | none => rfl
    | some v =>
      cases v with
      | str s => exact absurd hj (hloc s)
      | null => rfl
      | bool x => rfl
      | num x => rfl
      | arr x => rfl
      | obj x => rfl
  unfold runRequest
  rw [hb]
  simp [hq]

/-- Witness for C3: the empty body object has no location, so the request
fails validation with zero provider invocations. -/
theorem missing_location_fails_before_provider_witness :
    runRequest (some "key") ⟨none, none, some (Json.obj [])⟩
      [Json.obj [("location", Json.str "Paris")]] (fun _ _ => Except.ok "t") =
      (HttpOutcome.failure querySchemaErrorMessage, []) :=
  missing_location_fails_before_provider (some "key")
    ⟨none, none, some (Json.obj [])⟩ (Json.obj [])
    [Json.obj [("location", Json.str "Paris")]] (fun _ _ => Except.ok "t")
    rfl (fun s h => Option.noConfusion h)

/-- Counterexample to C3 as stated: a body whose location is the empty
string raises no ValidationError — the request succeeds and the provider
records one invocation, with the empty location. -/
theorem empty_location_reaches_provider :
    runRequest (some "key") ⟨none, none, some emptyLocationBody⟩
      [emptyLocationBody] (fun _ _ => Except.ok "done") =
      (HttpOutcome.success "done", [""]) := rfl

/-- Claim C4 (amended): dependency assembly fails with the configuration
error iff the secret is absent or the empty string (JS falsiness), in which
case — provided the body has already passed `querySchema`, which runs
first — the response is the configuration-error envelope regardless of
headers; every successfully assembled bag round-trips through `depsSchema`. -/
theorem config_error_iff_key_falsy (apiKey : Option String)
    (uc : UserContext) :
    ((∃ e, assembleDeps apiKey uc = Except.error e) ↔
      (apiKey = none ∨ apiKey = some "")) ∧
    (∀ d, assembleDeps apiKey uc = Except.ok d →
      parseDepsSchema (encodeDeps d) = some d) ∧
    (∀ (req : Request) (b : Json) (toolCalls : List Json)
       (orch : DependenciesType → String → Except String String)
       (loc : String),
       req.body = some b → parseQuerySchema b = Except.ok loc →
       (apiKey = none ∨ apiKey = some "") →
       runRequest apiKey req toolCalls orch =
         (HttpOutcome.failure missingKeyMessage, [])) := by
  refine ⟨?_, ?_, ?_⟩
  · cases apiKey with
    | none => simp [assembleDeps]
    | some k =>
      by_cases hk : k = "" <;> simp [assembleDeps, hk]
  · intro d hd
    cases apiKey with
    | none => exact absurd hd (by simp [assembleDeps])
    | some k =>
      by_cases hk : k = ""
      · rw [assembleDeps] at hd
        simp [hk] at hd
      · rw [assembleDeps] at hd
        simp [hk] at hd
        rw [← hd]
        cases k with
        | mk l =>
          cases l with
          | nil => exact absurd rfl hk
          | cons c cs => rfl
  · intro req b toolCalls orch loc hb hq hfalsy
    unfold runRequest
    rw [hb]
    rcases hfalsy with h | h <;> subst h <;> simp [hq, assembleDeps]

/-- Witness for C4: with the secret absent and a validating body, the
response is the configuration-error envelope. -/
theorem config_error_iff_key_falsy_witness :
    runRequest none
      ⟨some "Alice", some "admin",
        some (Json.obj [("location", Json.str "Paris")])⟩ []
      (fun _ _ => Except.ok "text") =
      (HttpOutcome.failure missingKeyMessage, []) :=
  (config_error_iff_key_falsy none ⟨"Alice", "admin"⟩).2.2
    ⟨some "Alice", some "admin",
      some (Json.obj [("location", Json.str "Paris")])⟩
    (Json.obj [("location", Json.str "Paris")]) []
    (fun _ _ => Except.ok "text") "Paris" rfl rfl (Or.inl rfl)

/-- Counterexample to C4 as stated: with the secret absent but an invalid
body, the response carries the validation message, not the missing-key
message — the configuration error is not returned regardless of body. -/
theorem invalid_body_masks_missing_key :
    (runRequest none ⟨none, none, some (Json.obj [])⟩ []
      (fun _ _ => Except.ok "text")).1 =
      HttpOutcome.failure querySchemaErrorMessage ∧
    querySchemaErrorMessage ≠ missingKeyMessage := by
  constructor
  · rfl
  · decide

/-- Claim C5: Scenario A — for location "San Francisco" with a fahrenheit
bag and the mocked provider payload, the Weather Tool returns exactly the
expected report. -/
theorem scenario_a_report :
    weatherToolExecute "San Francisco"
      ⟨"test-key", TemperatureUnit.fahrenheit, "Alice", "admin"⟩
      ⟨true, "OK", scenarioABody⟩ =
      Except.ok ⟨"San Francisco", 72, "partly cloudy", "65%",
        TemperatureUnit.fahrenheit⟩ := rfl

/-- A provider body whose `name` is a number, not a string. -/
def badNameBody : Json := Json.obj [("name", Json.num 3)]

/-- Claim C6: when `name` is not a string, or `main.temp` or `main.humidity`
is missing or not a number, `dataSchema` rejects the body and the Weather
Tool fails with the validation error — never a report built from the
partial payload. -/
theorem missing_required_fields_never_yield_report
    (body : Json) (loc key st : String) (u : TemperatureUnit)
    (hbad : isStrField body "name" = false ∨ mainFieldsOk body = false) :
    parseDataSchema body = none ∧
    fetchWeather loc key u ⟨true, st, body⟩ =
      Except.error (AppError.validationError dataSchemaErrorMessage) := by
  have hp : parseDataSchema body = none := by
    unfold parseDataSchema
    repeat' split
    all_goals try rfl
    all_goals
      rcases hbad with h | h <;>
        simp_all [isStrField, mainFieldsOk, isNumField]
  exact ⟨hp, by unfold fetchWeather; simp [hp]⟩

/-- Witness for C6: a body whose `name` is the number 3 is rejected. -/
theorem missing_required_fields_never_yield_report_witness :
    parseDataSchema badNameBody = none ∧
    fetchWeather "X" "k" TemperatureUnit.celsius ⟨true, "OK", badNameBody⟩ =
      Except.error (AppError.validationError dataSchemaErrorMessage) :=
  missing_required_fields_never_yield_report badNameBody "X" "k" "OK"
    TemperatureUnit.celsius (Or.inl rfl)

/-- Claim C7: whenever the Weather Tool returns a report, its `unit` equals
the `temperatureUnit` of the dependency bag supplied for that call. -/
theorem report_unit_matches_dependency_unit
    (loc : String) (deps : DependenciesType) (resp : HttpResponse)
    (r : WeatherReport)
    (h : weatherToolExecute loc deps resp = Except.ok r) :
    r.unit = deps.temperatureUnit := by
  unfold weatherToolExecute fetchWeather at h
  split at h
  · exact Except.noConfusion h
  · cases hp : parseDataSchema resp.body with
    | none => rw [hp] at h; exact Except.noConfusion h
    | some d =>
      rw [hp] at h
      injection h with h2
      rw [← h2]

/-- Witness for C7: the Scenario A report carries the bag's unit. -/
theorem report_unit_matches_dependency_unit_witness :
    (⟨"San Francisco", 72, "partly cloudy", "65%",
        TemperatureUnit.fahrenheit⟩ : WeatherReport).unit =
      TemperatureUnit.fahrenheit :=
  report_unit_matches_dependency_unit "San Francisco"
    ⟨"test-key", TemperatureUnit.fahrenheit, "Alice", "admin"⟩
    ⟨true, "OK", scenarioABody⟩
    ⟨"San Francisco", 72, "partly cloudy", "65%",
      TemperatureUnit.fahrenheit⟩ rfl

/-- Claim C8: for a validated payload whose `weather` array is empty (no
description anywhere), `conditions` is exactly "unknown", and every other
field is derived, not defaulted: `location` from `name`, `temperature`
from `main.temp`, `humidity` from `main.humidity` with a percent sign,
`unit` from the bag. -/
theorem missing_description_defaults_conditions_only
    (body : Json) (d : WeatherData) (loc key st : String)
    (u : TemperatureUnit)
    (hp : parseDataSchema body = some d) (hw : d.weather = []) :
    fetchWeather loc key u ⟨true, st, body⟩ =
      Except.ok ⟨d.name, d.temp, "unknown",
        toString d.humidity ++ "%", u⟩ := by
  unfold fetchWeather
  simp [hp, hw]

/-- Witness for C8: the description-less body of `bodyNoDescription`. -/
theorem missing_description_defaults_conditions_only_witness :
    fetchWeather "SF" "k" TemperatureUnit.celsius
      ⟨true, "OK", bodyNoDescription⟩ =
      Except.ok ⟨"San Francisco", 72, "unknown", "65%",
        TemperatureUnit.celsius⟩ :=
  missing_description_defaults_conditions_only bodyNoDescription
    ⟨"San Francisco", 72, 65, []⟩ "SF" "k" "OK"
    TemperatureUnit.celsius rfl rfl

/-- Claim C9: the Weather Tool is idempotent for a fixed provider response:
two invocations with identical `(location, dependencies)` and the same
provider response yield structurally identical reports — the embedding is a
pure function of its arguments, mirroring the tool's lack of internal
mutable state. -/
theorem tool_idempotent_for_fixed_provider
    (loc : String) (deps : DependenciesType) (resp : HttpResponse)
    (r₁ r₂ : WeatherReport)
    (h₁ : weatherToolExecute loc deps resp = Except.ok r₁)
    (h₂ : weatherToolExecute loc deps resp = Except.ok r₂) :
    r₁ = r₂ := by
  rw [h₁] at h₂
  injection h₂

/-- Witness for C9: two Scenario A invocations agree. -/
theorem tool_idempotent_for_fixed_provider_witness :
    (⟨"San Francisco", 72, "partly cloudy", "65%",
        TemperatureUnit.fahrenheit⟩ : WeatherReport) =
      ⟨"San Francisco", 72, "partly cloudy", "65%",
        TemperatureUnit.fahrenheit⟩ :=
  tool_idempotent_for_fixed_provider "San Francisco"
    ⟨"test-key", TemperatureUnit.fahrenheit, "Alice", "admin"⟩
    ⟨true, "OK", scenarioABody⟩
    ⟨"San Francisco", 72, "partly cloudy", "65%",
      TemperatureUnit.fahrenheit⟩
    ⟨"San Francisco", 72, "partly cloudy", "65%",
      TemperatureUnit.fahrenheit⟩ rfl rfl

/-- Helper: every bag the assembler produces carries `fahrenheit`. -/
theorem assembleDeps_unit_fahrenheit (apiKey : Option String)
    (uc : UserContext) (d : DependenciesType)
    (h : assembleDeps apiKey uc = Except.ok d) :
    d.temperatureUnit = TemperatureUnit.fahrenheit := by
  cases apiKey with
  | none => exact Except.noConfusion h
  | some k =>
    unfold assembleDeps at h
    by_cases hk : k = ""
    · simp [hk] at h
    · simp [hk] at h
      rw [← h]

/-- Claim C10: the bag handed to the orchestrator (and hence to the Weather
Tool) always carries `temperatureUnit = fahrenheit`, for any headers, body,
and configuration: every assembled bag is fahrenheit, and the handler is
unchanged by guarding the orchestrator on that unit. -/
theorem dependency_unit_always_fahrenheit (apiKey : Option String)
    (uc : UserContext) (env : Option String) (req : Request)
    (toolCalls : List Json)
    (orch : DependenciesType → String → Except String String) :
    (∀ d, assembleDeps apiKey uc = Except.ok d →
       d.temperatureUnit = TemperatureUnit.fahrenheit) ∧
    runRequest env req toolCalls orch =
      runRequest env req toolCalls
        (fun d p =>
          if d.temperatureUnit = TemperatureUnit.fahrenheit then orch d p
          else Except.error "unreachable") := by
  constructor
  · exact fun d h => assembleDeps_unit_fahrenheit apiKey uc d h
  · unfold runRequest
    cases hb : req.body with
    | none => rfl
    | some b =>
      cases hq : parseQuerySchema b with
      | error e => simp [hq]
      | ok loc =>
        cases hd : assembleDeps env (extractUserContext req) with
        | error e => simp [hq, hd]
        | ok deps =>
          have hdu :=
            assembleDeps_unit_fahrenheit env (extractUserContext req) deps hd
          simp [hq, hd, hdu]

/-- Witness for C10: a concrete assembled bag is fahrenheit, and a concrete
request is unaffected by the fahrenheit guard. -/
theorem dependency_unit_always_fahrenheit_witness :
    (⟨"key", TemperatureUnit.fahrenheit, "Anonymous", "guest"⟩ :
        DependenciesType).temperatureUnit = TemperatureUnit.fahrenheit ∧
    runRequest (some "key")
      ⟨none, none, some (Json.obj [("location", Json.str "Rome")])⟩ []
      (fun _ _ => Except.ok "t") =
    runRequest (some "key")
      ⟨none, none, some (Json.obj [("location", Json.str "Rome")])⟩ []
      (fun d _ =>
        if d.temperatureUnit = TemperatureUnit.fahrenheit
        then Except.ok "t" else Except.error "unreachable") :=
  ⟨(dependency_unit_always_fahrenheit (some "key") ⟨"Anonymous", "guest"⟩
      (some "key")
      ⟨none, none, some (Json.obj [("location", Json.str "Rome")])⟩ []
      (fun _ _ => Except.ok "t")).1
      ⟨"key", TemperatureUnit.fahrenheit, "Anonymous", "guest"⟩ rfl,
   (dependency_unit_always_fahrenheit (some "key") ⟨"Anonymous", "guest"⟩
      (some "key")
      ⟨none, none, some (Json.obj [("location", Json.str "Rome")])⟩ []
      (fun _ _ => Except.ok "t")).2⟩
